import Mathlib

/-!
Verification development for the ACC Suite event-reconstruction engine.

The definitions below are a shallow embedding of the Python sources:
  - acc_suite/utils.py    (numeric canonicalisation, time formatting)
  - acc_suite/summary.py  (SummaryBuilder: event parsing, session tree, summary)
  - acc_suite/logger.py   (per-lap validity accumulator of ACCLogger.start)

Conventions of the embedding:
  - Python Optional values become Option.
  - Python floats produced by round(·, k) become exact rationals; rounding is
    round-half-to-even as in Python, computed over integers via Rat.divInt so
    that all definitions evaluate by kernel reduction.
  - Python truthiness tests on strings (if ts, x or y) are modelled by
    truthyStr and pyOr, which treat the empty string as falsy.
  - str.upper / str.strip / str.replace(" ", "_") / str.startswith are
    modelled character-wise over the ASCII domain used by the program.
  - JSON event dictionaries become the Event structure: event.get(k) becomes
    field access, with absent keys and non-convertible junk values both
    modelled as none (matching the try/except int(...) conversions).
-/

namespace AccSuite

/-- Python truthiness for an optional string: None and the empty string are
falsy; a non-empty string is its own truthy value. -/
def truthyStr : Option String → Option String
  | some s => if s = "" then none else some s
  | none => none

/-- Python a-or-b for optional strings (truthiness of a decides). -/
def pyOr (a b : Option String) : Option String :=
  match truthyStr a with
  | some s => some s
  | none => b

/-- Round-half-to-even of the fraction a / b (b positive), as Python round()
does on exact values; computed with integer floor division so it reduces. -/
def rhe (a b : ℤ) : ℤ :=
  let f := a / b
  let r := a % b
  if 2 * r < b then f
  else if b < 2 * r then f + 1
  else if f % 2 = 0 then f else f + 1

/-- Rounding an exact rational to one decimal digit, half-to-even, as
Python round(·, 1). -/
def rq1 (q : ℚ) : ℚ :=
  Rat.divInt (rhe (10 * q.num) q.den) 10

/-- utils.r1: round(float(value), 1), i.e. rounding to one decimal digit
(half-to-even), None passed through. -/
def r1 (v : Option ℚ) : Option ℚ :=
  v.map rq1

/-- Rounding an exact rational to three decimal digits, half-to-even, as
Python round(·, 3). -/
def r3 (q : ℚ) : ℚ :=
  Rat.divInt (rhe (1000 * q.num) q.den) 1000

/-- utils.SENTINEL_LAST_BEST_MS, the reserved "no time" sentinel. -/
def SENTINEL_LAST_BEST_MS : ℤ := 2147483647

/-- utils.as_int_ms restricted to integer-valued inputs (on an integer v the
int(round(float(v))) conversion of the source is the identity): values that are
non-positive, at least 100 minutes, or equal to the sentinel become None. -/
def as_int_ms (value : Option ℤ) : Option ℤ :=
  match value with
  | none => none
  | some v =>
      if v ≤ 0 ∨ 100 * 60 * 1000 ≤ v ∨ v = SENTINEL_LAST_BEST_MS then none
      else some v

/-- Left-pad the decimal digits of a non-negative integer with zeros to three
characters, as the fractional part of a %06.3f format. -/
def pad3 (n : ℤ) : String :=
  if n < 10 then "00" ++ toString n
  else if n < 100 then "0" ++ toString n
  else toString n

/-- utils.fmt_hms: milliseconds to "M:SS.mmm": minutes by floor division (the
Python float // 60 then int), seconds as the remainder zero-padded to two
integer and three fractional digits; None passes through.  On integer
millisecond inputs the float formatting of the source prints the exact
remainder, which is what the integer computation below produces. -/
def fmt_hms : Option ℤ → Option String
  | none => none
  | some ms =>
      let minutes : ℤ := ms / 60000
      let rem : ℤ := ms % 60000
      let secs : ℤ := rem / 1000
      let msPart : ℤ := rem % 1000
      some (toString minutes ++ ":" ++ (if secs < 10 then "0" else "")
            ++ toString secs ++ "." ++ pad3 msPart)

/-- Python str.strip() over the character data (whitespace from both ends). -/
def pyStrip (s : String) : String :=
  String.mk (((s.data.dropWhile Char.isWhitespace).reverse.dropWhile
      Char.isWhitespace).reverse)

/-- Python str.upper() character-wise (ASCII domain of this program). -/
def pyUpper (s : String) : String :=
  String.mk (s.data.map Char.toUpper)

/-- Python s.replace(" ", "_") for the single-character pattern used here. -/
def spaceToUnderscore (s : String) : String :=
  String.mk (s.data.map (fun c => if c = ' ' then '_' else c))

/-- Python s.startswith(p) over the character data. -/
def pyStartsWith (s p : String) : Bool :=
  s.data.take p.data.length == p.data

/-- SummaryBuilder._normalise_grip: strip, upper-case, spaces to underscores,
then force the ACC_ prefix; empty input normalises to None. -/
def normaliseGrip : Option String → Option String
  | none => none
  | some v =>
      let g := pyStrip v
      if g = "" then none
      else
        let g := spaceToUnderscore (pyUpper g)
        if pyStartsWith g "ACC_" then some g else some ("ACC_" ++ g)

/-- SummaryBuilder._normalise_session_type: like grip normalisation but with
Python truthiness on the raw value first and no space replacement. -/
def normaliseSessionType : Option String → Option String
  | none => none
  | some v =>
      if v = "" then none
      else
        let s := pyUpper (pyStrip v)
        if s = "" then none
        else if pyStartsWith s "ACC_" then some s else some ("ACC_" ++ s)

/-- summary.FUEL_QUALY_THRESHOLD: starting fuel above this is a race stint. -/
def FUEL_QUALY_THRESHOLD : ℚ := 20

/-- Python int() applied to an exact rational: truncation toward zero. -/
def pyInt (q : ℚ) : ℤ :=
  q.num.tdiv q.den

/-- Exact arithmetic mean of a list of integers (statistics.mean on ints). -/
def ratMean (xs : List ℤ) : ℚ :=
  Rat.divInt xs.sum xs.length

/-- One NDJSON event as consumed by SummaryBuilder._parse: each field is the
result of event.get(...) under the conversions the parser applies, with
absent keys and non-convertible values both rendered as none. -/
structure Event where
  ts : Option String := none
  event : Option String := none
  session_type : Option String := none
  track : Option String := none
  car_model : Option String := none
  fuel_start : Option ℚ := none
  fuel_end : Option ℚ := none
  lap : Option ℤ := none
  lap_ms : Option ℤ := none
  is_valid : Option Bool := none
  split_ms : Option ℤ := none
  air_temp : Option ℚ := none
  grip : Option String := none
  ballast : Option ℚ := none
  restrictor : Option ℚ := none
deriving Repr, DecidableEq

/-- summary.LapData. -/
structure LapData where
  lap : Option ℤ
  lap_ms : Option ℤ
  is_valid : Option Bool
  fuel_start : Option ℚ
  fuel_end : Option ℚ
  sectors_ms : List ℤ := []
deriving Repr, DecidableEq

/-- summary.StintData (end is a Lean keyword, hence the end_ field name). -/
structure StintData where
  start : Option String := none
  end_ : Option String := none
  fuel_start : Option ℚ := none
  fuel_end : Option ℚ := none
  classification : String := "unknown"
  laps : List LapData := []
  car_model : Option String := none
  weather_air_start : Option ℚ := none
  weather_grip_start : Option String := none
deriving Repr, DecidableEq

/-- StintData.valid_laps: laps whose is_valid is truthy (True). -/
def StintData.valid_laps (s : StintData) : ℕ :=
  (s.laps.filter (fun l => l.is_valid = some true)).length

/-- StintData.invalid_laps: laps whose is_valid is exactly False. -/
def StintData.invalid_laps (s : StintData) : ℕ :=
  (s.laps.filter (fun l => l.is_valid = some false)).length

/-- The lap_ms values the source list comprehensions keep under the truthiness
filter "if lap.lap_ms" (known and non-zero), optionally also requiring the
lap to be valid as in best_lap_ms. -/
def lapTimes (requireValid : Bool) (laps : List LapData) : List ℤ :=
  laps.filterMap (fun l =>
    if requireValid && !(l.is_valid == some true) then none
    else
      match l.lap_ms with
      | some m => if m = 0 then none else some m
      | none => none)

/-- StintData.best_lap_ms: minimum of the truthy lap times of valid laps. -/
def StintData.best_lap_ms (s : StintData) : Option ℤ :=
  match lapTimes true s.laps with
  | [] => none
  | x :: xs => some (xs.foldl min x)

/-- StintData.average_lap_ms: int(mean(times)) over the truthy lap times of
all laps (no validity filter in the source), i.e. the exact mean truncated
toward zero. -/
def StintData.average_lap_ms (s : StintData) : Option ℤ :=
  match lapTimes false s.laps with
  | [] => none
  | x :: xs => some (pyInt (ratMean (x :: xs)))

/-- summary.SessionData. -/
structure SessionData where
  session_type : Option String := none
  track : Option String := none
  start : Option String := none
  end_ : Option String := none
  car_model : Option String := none
  stints : List StintData := []
  weather_air : List ℚ := []
  weather_grip : List String := []
  bop_ballast : Option ℚ := none
  bop_restrictor : Option ℚ := none
deriving Repr, DecidableEq

/-- SessionData.active_stint: the last stint of the session, if any. -/
def SessionData.active_stint (s : SessionData) : Option StintData :=
  s.stints.getLast?

/-- Apply a function to the last element of a list (mutation of the Python
list tail through active_stint); the empty list is unchanged. -/
def updateLast {α : Type} (f : α → α) : List α → List α
  | [] => []
  | [x] => [f x]
  | x :: y :: xs => x :: updateLast f (y :: xs)

/-- The defaultdict sector cache: append a split to the list of a lap key. -/
def cacheAppend : List (ℤ × List ℤ) → ℤ → ℤ → List (ℤ × List ℤ)
  | [], k, v => [(k, [v])]
  | (k0, vs) :: rest, k, v =>
      if k0 = k then (k0, vs ++ [v]) :: rest
      else (k0, vs) :: cacheAppend rest k v

/-- dict.pop(k, []) on the sector cache: the stored list (default empty) and
the cache without that key. -/
def cachePop : List (ℤ × List ℤ) → ℤ → List ℤ × List (ℤ × List ℤ)
  | [], _ => ([], [])
  | (k0, vs) :: rest, k =>
      if k0 = k then (vs, rest)
      else
        let p := cachePop rest k
        (p.1, (k0, vs) :: p.2)

/-- The mutable state of SummaryBuilder during _parse.  sessions holds the
sessions already finalised (the Python list holds the open one too, but it is
always the last element, kept here in current until it closes). -/
structure ParseState where
  sessions : List SessionData := []
  current : Option SessionData := none
  sector_cache : List (ℤ × List ℤ) := []
  last_ts : Option String := none
  last_weather_air : Option ℚ := none
  last_weather_grip : Option String := none
deriving Repr, DecidableEq

/-- SummaryBuilder._close_open_stint: give every stint without an end the
fallback timestamp (ts or last_ts, already combined by the caller). -/
def closeOpenStint (fallback : Option String) (s : SessionData) : SessionData :=
  { s with stints := s.stints.map (fun stn =>
      if stn.end_ = none then { stn with end_ := fallback } else stn) }

/-- SummaryBuilder._finalise_session: set the session end to ts or last_ts if
still unset, then close all open stints with the same fallback. -/
def finaliseSession (lastTs ts : Option String) (s : SessionData) : SessionData :=
  let s := if s.end_ = none then { s with end_ := pyOr ts lastTs } else s
  closeOpenStint (pyOr ts lastTs) s

/-- _parse on a session_start event: finalise any open session, then open a
fresh one and clear the sector cache and the last-weather cache. -/
def stepSessionStart (st : ParseState) (e : Event) : ParseState :=
  let closed :=
    match st.current with
    | some c => st.sessions ++ [finaliseSession st.last_ts e.ts c]
    | none => st.sessions
  { sessions := closed
    current := some { session_type := truthyStr e.session_type
                      track := e.track
                      start := e.ts
                      car_model := e.car_model }
    sector_cache := []
    last_ts := st.last_ts
    last_weather_air := none
    last_weather_grip := none }

/-- _parse on a session_end event: record the event timestamp as the session
end, close open stints with ts-or-last_ts, drop the current reference and
clear the sector cache. -/
def stepSessionEnd (st : ParseState) (c : SessionData) (e : Event) : ParseState :=
  let c := { c with end_ := e.ts }
  let c := closeOpenStint (pyOr e.ts st.last_ts) c
  { st with current := none, sessions := st.sessions ++ [c], sector_cache := [] }

/-- The classification assigned at stint creation: race exactly when the
(rounded) starting fuel is known and above FUEL_QUALY_THRESHOLD. -/
def classifyFuel (f : Option ℚ) : String :=
  match f with
  | some q => if FUEL_QUALY_THRESHOLD < q then "race" else "qualy"
  | none => "qualy"

/-- _parse on a stint_start event: append a new stint with rounded starting
fuel, the classification fixed from it, the car model (event value or session
fallback) and the cached weather; a truthy event car model also updates the
session car model. -/
def stepStintStart (st : ParseState) (c : SessionData) (e : Event) : ParseState :=
  let fs := r1 e.fuel_start
  let stint : StintData :=
    { start := e.ts
      fuel_start := fs
      classification := classifyFuel fs
      car_model := pyOr e.car_model c.car_model
      weather_air_start := st.last_weather_air
      weather_grip_start := normaliseGrip st.last_weather_grip }
  let c := { c with
      stints := c.stints ++ [stint]
      car_model := pyOr e.car_model c.car_model }
  { st with current := some c }

/-- _parse on a stint_end event: if the session has a stint, set the end
timestamp and rounded end fuel of the most recent one (the source does not
check whether it is already closed); no stint means no change. -/
def stepStintEnd (st : ParseState) (c : SessionData) (e : Event) : ParseState :=
  let c := { c with stints := (updateLast
      (fun stn => { stn with end_ := e.ts, fuel_end := r1 e.fuel_end }) c.stints) }
  { st with current := some c }

/-- _parse on a lap_complete event: synthesise a stint (start = event
timestamp, defaults elsewhere) when the session has none, pop the buffered
sector splits of this lap number, and append the lap to the most recent
stint. -/
def stepLapComplete (st : ParseState) (c : SessionData) (e : Event) : ParseState :=
  let stints := if c.stints.isEmpty then [({ start := e.ts } : StintData)] else c.stints
  let popped :=
    match e.lap with
    | some n => cachePop st.sector_cache n
    | none => ([], st.sector_cache)
  let lap : LapData :=
    { lap := e.lap
      lap_ms := e.lap_ms
      is_valid := e.is_valid
      fuel_start := r1 e.fuel_start
      fuel_end := r1 e.fuel_end
      sectors_ms := popped.1 }
  let stints := updateLast (fun stn => { stn with laps := stn.laps ++ [lap] }) stints
  { st with current := some { c with stints := stints }, sector_cache := popped.2 }

/-- _parse on a sector_split event: buffer the split under its lap number when
both fields are present and convertible. -/
def stepSectorSplit (st : ParseState) (e : Event) : ParseState :=
  match e.lap, e.split_ms with
  | some n, some v => { st with sector_cache := cacheAppend st.sector_cache n v }
  | _, _ => st

/-- wx stage 1: a numeric air temperature is appended to the session weather
samples. -/
def wxAir (e : Event) (c : SessionData) : SessionData :=
  match e.air_temp with
  | some a => { c with weather_air := c.weather_air ++ [a] }
  | none => c

/-- wx stage 2: a present grip value is normalised and, when the
normalisation is truthy, appended to the session grip samples. -/
def wxGrip (e : Event) (c : SessionData) : SessionData :=
  match e.grip with
  | some _ =>
      match normaliseGrip e.grip with
      | some gs => { c with weather_grip := c.weather_grip ++ [gs] }
      | none => c
  | none => c

/-- wx stage 3: a present ballast value replaces the session BOP ballast. -/
def wxBallast (e : Event) (c : SessionData) : SessionData :=
  match e.ballast with
  | some b => { c with bop_ballast := some b }
  | none => c

/-- wx stage 4: a present restrictor value replaces the session BOP
restrictor. -/
def wxRestrictor (e : Event) (c : SessionData) : SessionData :=
  match e.restrictor with
  | some r => { c with bop_restrictor := some r }
  | none => c

/-- wx stage 5: a truthy car model replaces the session car model. -/
def wxCarModel (e : Event) (c : SessionData) : SessionData :=
  match truthyStr e.car_model with
  | some v => { c with car_model := some v }
  | none => c

/-- The per-stint weather backfill of a wx event: set the stint-start air and
grip where still unset. -/
def backfillStint (e : Event) (stn : StintData) : StintData :=
  let stn :=
    if stn.weather_air_start = none then
      match e.air_temp with
      | some a => { stn with weather_air_start := some a }
      | none => stn
    else stn
  if stn.weather_grip_start = none then
    match e.grip with
    | some g => { stn with weather_grip_start := normaliseGrip (some g) }
    | none => stn
  else stn

/-- wx stage 6: backfill the stint-start weather fields of the most recent
stint where they are still unset. -/
def wxBackfill (e : Event) (c : SessionData) : SessionData :=
  { c with stints := (updateLast (backfillStint e) c.stints) }

/-- _parse on a wx event: append weather samples and update the last-weather
cache, update BOP fields and car model when present, and backfill the
stint-start weather of the most recent stint where still unset. -/
def stepWx (st : ParseState) (c : SessionData) (e : Event) : ParseState :=
  let newAir :=
    match e.air_temp with
    | some a => some a
    | none => st.last_weather_air
  let newGrip :=
    match e.grip with
    | some _ => normaliseGrip e.grip
    | none => st.last_weather_grip
  let c := wxBackfill e (wxCarModel e (wxRestrictor e (wxBallast e
      (wxGrip e (wxAir e c)))))
  { st with current := some c
            last_weather_air := newAir
            last_weather_grip := newGrip }

/-- The kind dispatch of one _parse iteration, after the last_ts update, in
the order of the source: any event other than session_start is dropped when
no session is open, and unknown kinds (hb among them) change nothing here. -/
def dispatchEvent (st : ParseState) (e : Event) : ParseState :=
  if e.event = some "session_start" then stepSessionStart st e
  else
    match st.current with
    | none => st
    | some c =>
        if e.event = some "session_end" then stepSessionEnd st c e
        else if e.event = some "stint_start" then stepStintStart st c e
        else if e.event = some "stint_end" then stepStintEnd st c e
        else if e.event = some "lap_complete" then stepLapComplete st c e
        else if e.event = some "sector_split" then stepSectorSplit st e
        else if e.event = some "wx" then stepWx st c e
        else st

/-- The "if ts: self._last_ts = ts" statement at the top of one _parse
iteration. -/
def tsUpdate (st : ParseState) (e : Event) : ParseState :=
  match truthyStr e.ts with
  | some _ => { st with last_ts := e.ts }
  | none => st

/-- One iteration of the _parse event loop: record a truthy timestamp into
last_ts, then dispatch on the event kind. -/
def parseStep (st : ParseState) (e : Event) : ParseState :=
  dispatchEvent (tsUpdate st e) e

/-- The state of a fresh SummaryBuilder before _parse. -/
def initState : ParseState := {}

/-- Run the _parse loop over a whole event sequence. -/
def parseEvents (evs : List Event) : ParseState :=
  evs.foldl parseStep initState

/-- End of the _parse loop: a still-open session is finalised with no event
timestamp, so last_ts is the fallback. -/
def finishParse (st : ParseState) : List SessionData :=
  match st.current with
  | some c => st.sessions ++ [finaliseSession st.last_ts none c]
  | none => st.sessions

/-- SummaryBuilder._parse as a function: reconstruct the list of sessions
from an event sequence. -/
def reconstruct (evs : List Event) : List SessionData :=
  finishParse (parseEvents evs)

/-- All laps of a session in stint order (the nested comprehension of
_session_block). -/
def sessionLaps (s : SessionData) : List LapData :=
  s.stints.flatMap StintData.laps

/-- _session_block total_closed: laps with a truthy lap time. -/
def SessionData.total_closed (s : SessionData) : ℕ :=
  ((sessionLaps s).filter (fun l =>
      match l.lap_ms with
      | some m => m != 0
      | none => false)).length

/-- _session_block total_valid: laps whose validity is True. -/
def SessionData.total_valid (s : SessionData) : ℕ :=
  ((sessionLaps s).filter (fun l => l.is_valid == some true)).length

/-- _session_block total_invalid: laps whose validity is exactly False. -/
def SessionData.total_invalid (s : SessionData) : ℕ :=
  ((sessionLaps s).filter (fun l => l.is_valid == some false)).length

/-- The data a bests_internal entry is built from: the stint personal best
and its starting fuel (lap_time_s and lap_time_hms are derived from it). -/
structure BestEntry where
  lap_time_ms : ℤ
  fuel_pitout_l : Option ℚ
deriving Repr, DecidableEq

/-- One step of the bests_internal fold of _session_block: a stint without a
personal best, or with a classification other than race and qualy, leaves the
accumulator (race best, qualy best) unchanged; otherwise the entry of its
classification is replaced when unset or strictly beaten. -/
def bestsStep (acc : Option BestEntry × Option BestEntry) (stn : StintData) :
    Option BestEntry × Option BestEntry :=
  match stn.best_lap_ms with
  | none => acc
  | some best =>
      if stn.classification = "race" then
        match acc.1 with
        | none => (some ⟨best, stn.fuel_start⟩, acc.2)
        | some cur =>
            if best < cur.lap_time_ms then (some ⟨best, stn.fuel_start⟩, acc.2)
            else acc
      else if stn.classification = "qualy" then
        match acc.2 with
        | none => (acc.1, some ⟨best, stn.fuel_start⟩)
        | some cur =>
            if best < cur.lap_time_ms then (acc.1, some ⟨best, stn.fuel_start⟩)
            else acc
      else acc

/-- The bests_internal loop of _session_block over a stint list. -/
def bestsOf (stints : List StintData) : Option BestEntry × Option BestEntry :=
  stints.foldl bestsStep (none, none)

/-- round(best_ms / 1000.0, 3), the lap_time_s field. -/
def lapTimeS (ms : ℤ) : ℚ :=
  r3 (Rat.divInt ms 1000)

/-- Exact mean of a list of rationals (statistics.mean in _session_block). -/
def ratListMean (xs : List ℚ) : ℚ :=
  xs.sum / (xs.length : ℚ)

/-- Occurrences of a value in a list. -/
def countOcc (xs : List String) (v : String) : ℕ :=
  (xs.filter (fun x => x = v)).length

/-- The distinct values of a list in first-occurrence order (the iteration
order of a Python Counter). -/
def dedupFirst (xs : List String) : List String :=
  xs.foldl (fun acc x => if x ∈ acc then acc else acc ++ [x]) []

/-- Counter(xs).most_common(1)[0][0]: the value with the highest count, ties
resolved in favour of the first-encountered value (Python sort stability). -/
def mostCommon (xs : List String) : Option String :=
  match dedupFirst xs with
  | [] => none
  | y :: ys => some (ys.foldl (fun b c => if countOcc xs b < countOcc xs c then c else b) y)

/-- The laps sub-dictionary of a session block. -/
structure LapsPayload where
  total_closed : ℕ
  valid : ℕ
  invalid : ℕ
deriving Repr, DecidableEq

/-- One entry of the bests dictionary of a session block. -/
structure BestView where
  lap_time_s : ℚ
  lap_time_hms : Option String
  fuel_pitout_l : Option ℚ
deriving Repr, DecidableEq

/-- The fields of a bests entry emitted by _session_block, derived from the
winning stint personal best. -/
def bestView : Option BestEntry → Option BestView
  | none => none
  | some b =>
      some { lap_time_s := lapTimeS b.lap_time_ms
             lap_time_hms := fmt_hms (some b.lap_time_ms)
             fuel_pitout_l := b.fuel_pitout_l }

/-- A session block of the summary, restricted to the fields that are not
wall-clock duration arithmetic: the two duration fields of the source
(duration_min, driving_duration_min) are functions of the start/end
timestamps included here, computed through datetime parsing that this
development does not model. -/
structure SessionBlockView where
  type : Option String
  track : Option String
  start_local : Option String
  end_local : Option String
  grip_most_frequent : Option String
  air_temp_avg : Option ℚ
  laps : LapsPayload
  best_race : Option BestView
  best_qualy : Option BestView
deriving Repr, DecidableEq

/-- SummaryBuilder._session_block (modulo the duration fields, see
SessionBlockView). -/
def sessionBlockView (s : SessionData) : SessionBlockView :=
  { type := normaliseSessionType s.session_type
    track := s.track
    start_local := s.start
    end_local := s.end_
    grip_most_frequent := mostCommon s.weather_grip
    air_temp_avg :=
      if s.weather_air.isEmpty then none else some (rq1 (ratListMean s.weather_air))
    laps := { total_closed := s.total_closed
              valid := s.total_valid
              invalid := s.total_invalid }
    best_race := bestView (bestsOf s.stints).1
    best_qualy := bestView (bestsOf s.stints).2 }

/-- A flat per-stint block of the summary, restricted like SessionBlockView
(driving_duration_min is a function of the two local timestamps here). -/
structure StintSummaryView where
  index : ℕ
  stint_type : Option String
  car_model : Option String
  time_start_local : Option String
  time_end_local : Option String
  weather_air : Option ℚ
  weather_grip : Option String
  fuel_pitout : Option ℚ
  laps_total : ℕ
  laps_valid : ℕ
  laps_invalid : ℕ
  avg : Option String
  lap_time_s : Option ℚ
  best_lap_time : Option String
deriving Repr, DecidableEq

/-- SummaryBuilder._stint_summary (modulo the duration field). -/
def stintSummaryView (sess : SessionData) (idx : ℕ) (stn : StintData) :
    StintSummaryView :=
  { index := idx
    stint_type := (truthyStr (some stn.classification)).map pyUpper
    car_model := pyOr stn.car_model sess.car_model
    time_start_local := stn.start
    time_end_local := stn.end_
    weather_air := stn.weather_air_start
    weather_grip := normaliseGrip stn.weather_grip_start
    fuel_pitout := stn.fuel_start
    laps_total := stn.laps.length
    laps_valid := stn.valid_laps
    laps_invalid := stn.invalid_laps
    avg := fmt_hms stn.average_lap_ms
    lap_time_s := stn.best_lap_ms.map lapTimeS
    best_lap_time := fmt_hms stn.best_lap_ms }

/-- SummaryBuilder._flatten_stints: all stints of all sessions in order with
a one-based running index. -/
def flattenStints (sessions : List SessionData) : List StintSummaryView :=
  let pairs := sessions.flatMap (fun s => s.stints.map (fun stn => (s, stn)))
  pairs.enum.map (fun p => stintSummaryView p.2.1 (p.1 + 1) p.2.2)

/-- The summary document of SummaryBuilder.build, excluding the file name
(taken from the path, not the events), the generated_at field (a constant
None in build, overwritten by the scheduler with the wall clock) and the
duration fields (see SessionBlockView). -/
structure SummaryView where
  session : List SessionBlockView
  stints : List StintSummaryView
deriving Repr, DecidableEq

/-- SummaryBuilder.build on an event sequence: parse, then derive the
session blocks and the flat stint list. -/
def buildView (evs : List Event) : SummaryView :=
  let sessions := reconstruct evs
  { session := sessions.map sessionBlockView
    stints := flattenStints sessions }

/-- One tick of the per-lap validity tracking of ACCLogger.start: a missing
flag leaves the accumulator, the first observed flag seeds it, and every
further one is ANDed into it. -/
def lapValidStep (acc : Option Bool) (obs : Option Bool) : Option Bool :=
  match obs with
  | none => acc
  | some b =>
      match acc with
      | none => some b
      | some a => some (a && b)

/-- The validity accumulator over the flags observed during one lap, as
emitted in the lap_complete event (bool(acc) if acc is not None else None is
the identity on this tri-state value). -/
def runValidObs (obs : List Bool) : Option Bool :=
  obs.foldl (fun a b => lapValidStep a (some b)) none

/-- Specification-side definition for claim C8, following the words of the
spec rather than the source: the per-stint average as the arithmetic mean of
the known lap times rounded to the nearest millisecond. -/
def specAverageLapMs (s : StintData) : Option ℤ :=
  match lapTimes false s.laps with
  | [] => none
  | x :: xs => some (round (ratMean (x :: xs)))

/-- A session with both endpoints and a start and an end on every stint. -/
def sessionClosed (s : SessionData) : Prop :=
  s.start.isSome ∧ s.end_.isSome ∧
    ∀ stn ∈ s.stints, stn.start.isSome ∧ stn.end_.isSome

/-- The invariant the _parse loop maintains when every event carries a truthy
timestamp: finalised sessions are fully closed, and an open session has a
start, start timestamps on all its stints, and a recorded last_ts to fall
back on. -/
def stateInv (st : ParseState) : Prop :=
  (∀ s ∈ st.sessions, sessionClosed s) ∧
  ∀ c, st.current = some c →
    c.start.isSome ∧ st.last_ts.isSome ∧ ∀ stn ∈ c.stints, stn.start.isSome

/-- ys extends xs: xs is an initial segment of ys. -/
def extendsList {α : Type} (xs ys : List α) : Prop :=
  ys.take xs.length = xs

/-- The classifications of all stints of the state, in creation order
(finalised sessions first, then the open one). -/
def stintClassifications (st : ParseState) : List String :=
  (st.sessions ++ (match st.current with | some c => [c] | none => [])).flatMap
    (fun s => s.stints.map StintData.classification)

/-- Number of laps recorded in a session. -/
def sessionLapCount (s : SessionData) : ℕ :=
  (s.stints.map (fun stn => stn.laps.length)).sum

/-- Number of laps recorded anywhere in the state. -/
def stateLapCount (st : ParseState) : ℕ :=
  (st.sessions.map sessionLapCount).sum +
    (match st.current with | some c => sessionLapCount c | none => 0)

/-- Number of laps in a reconstructed session tree. -/
def treeLapCount (sessions : List SessionData) : ℕ :=
  (sessions.map sessionLapCount).sum

/-- The event stream of the end-to-end scenario of the spec: one session, one
stint with fuel 30, two valid laps of 95000 and 94000 ms. -/
def c2Events : List Event :=
  [ { ts := some "2024-05-01T10:00:00Z", event := some "session_start",
      session_type := some "RACE", track := some "monza" },
    { ts := some "2024-05-01T10:01:00Z", event := some "stint_start",
      fuel_start := some 30 },
    { ts := some "2024-05-01T10:02:35Z", event := some "lap_complete",
      lap := some 1, lap_ms := some 95000, is_valid := some true },
    { ts := some "2024-05-01T10:04:09Z", event := some "lap_complete",
      lap := some 2, lap_ms := some 94000, is_valid := some true },
    { ts := some "2024-05-01T10:05:00Z", event := some "stint_end" },
    { ts := some "2024-05-01T10:06:00Z", event := some "session_end" } ]

/-- A truncated stream: no stint_end and no session_end; the last timestamp
seen in the log is T3. -/
def c3TruncEvents : List Event :=
  [ { ts := some "T1", event := some "session_start", track := some "spa" },
    { ts := some "T2", event := some "stint_start", fuel_start := some 30 },
    { ts := some "T3", event := some "lap_complete",
      lap := some 1, lap_ms := some 101500, is_valid := some true } ]

/-- A stint that starts with fuel 21.0 and sees fuel 5.0 later in the same
stint (lap and stint_end fuel readings). -/
def c6Events : List Event :=
  [ { ts := some "T1", event := some "session_start", track := some "spa" },
    { ts := some "T2", event := some "stint_start", fuel_start := some 21 },
    { ts := some "T3", event := some "lap_complete",
      lap := some 1, lap_ms := some 98000, is_valid := some true,
      fuel_start := some 21, fuel_end := some 5 },
    { ts := some "T4", event := some "stint_end", fuel_end := some 5 },
    { ts := some "T5", event := some "session_end" } ]

/-- Further events appended after c6Events (a second session). -/
def c6MoreEvents : List Event :=
  [ { ts := some "T6", event := some "session_start", track := some "spa" },
    { ts := some "T7", event := some "stint_start", fuel_start := some 10 },
    { ts := some "T8", event := some "session_end" } ]

/-- A lone lap_complete event, arriving with no session open. -/
def c7LoneLap : Event :=
  { ts := some "T1", event := some "lap_complete",
    lap := some 4, lap_ms := some 90000, is_valid := some true }

/-- A stream whose stint is closed by a first stint_end (timestamp T3, fuel
10.0) and then hit by a second stint_end (timestamp T4, fuel 5.0). -/
def c9Events : List Event :=
  [ { ts := some "T1", event := some "session_start", track := some "spa" },
    { ts := some "T2", event := some "stint_start", fuel_start := some 30 },
    { ts := some "T3", event := some "stint_end", fuel_end := some 10 },
    { ts := some "T4", event := some "stint_end", fuel_end := some 5 },
    { ts := some "T5", event := some "session_end" } ]

/-- A lap of the given number and time, valid, with no fuel data. -/
def mkValidLap (n ms : ℤ) : LapData :=
  { lap := some n, lap_ms := some ms, is_valid := some true,
    fuel_start := none, fuel_end := none }

/-- A stint whose known lap times are 95000, 95001, 95001: their mean is
285002/3, between 95000 and 95001 and nearer to 95001. -/
def c8Stint : StintData :=
  { laps := [mkValidLap 1 95000, mkValidLap 2 95001, mkValidLap 3 95001] }

/-- A stint with known lap times 90000 and 90001 (all non-negative). -/
def c8WitnessStint : StintData :=
  { laps := [mkValidLap 1 90000, mkValidLap 2 90001] }

/-- The state after opening a session and a stint with fuel 30: an open
session whose only stint is still open. -/
def stOpenStint : ParseState :=
  parseEvents (c2Events.take 2)

/-- The state after opening a session only (no stint yet). -/
def stOpenSession : ParseState :=
  parseEvents (c2Events.take 1)

/-- A mixed stint list: a race stint, an unknown synthetic stint with the
fastest valid lap, and a qualy stint. -/
def c10Stints : List StintData :=
  [ { start := some "T1", classification := "race", fuel_start := some 30,
      laps := [mkValidLap 1 95000] },
    { start := some "T2", classification := "unknown",
      laps := [mkValidLap 2 80000] },
    { start := some "T3", classification := "qualy", fuel_start := some 10,
      laps := [mkValidLap 3 93000] } ]

/-- The open session sitting in stOpenSession (no stint yet). -/
def openMonza : SessionData :=
  { session_type := some "RACE"
    track := some "monza"
    start := some "2024-05-01T10:00:00Z" }

/-- The stint opened by the second event of c2Events (fuel 30, race). -/
def stint30 : StintData :=
  { start := some "2024-05-01T10:01:00Z"
    fuel_start := some 30
    classification := "race" }

/-- The open session sitting in stOpenStint (one open stint). -/
def monzaWithStint : SessionData :=
  { openMonza with stints := [stint30] }

/-- A stream whose only stint is closed by stint_end at T3 before a
lap_complete arrives at T4: no stint is open when the lap arrives, but one
exists. -/
def c7ClosedStintEvents : List Event :=
  [ { ts := some "T1", event := some "session_start", track := some "spa" },
    { ts := some "T2", event := some "stint_start", fuel_start := some 30 },
    { ts := some "T3", event := some "stint_end", fuel_end := some 20 },
    { ts := some "T4", event := some "lap_complete",
      lap := some 1, lap_ms := some 90000, is_valid := some true } ]

/-- The state after the first three events of c7ClosedStintEvents: an open
session whose only stint is already closed. -/
def stClosedStint : ParseState :=
  parseEvents (c7ClosedStintEvents.take 3)

/-- The closed stint sitting in stClosedStint (ended at T3, fuel 20). -/
def closedStint30 : StintData :=
  { start := some "T2"
    end_ := some "T3"
    fuel_start := some 30
    fuel_end := some 20
    classification := "race" }

/-- The open session sitting in stClosedStint. -/
def spaSession : SessionData :=
  { track := some "spa"
    start := some "T1"
    stints := [closedStint30] }

/-- A stint_start event with fuel 21.0. -/
def c6WitnessEvent : Event :=
  { ts := some "T9", event := some "stint_start", fuel_start := some 21 }

/-- A stint_end event with fuel 7.0. -/
def c9WitnessEvent : Event :=
  { ts := some "T9", event := some "stint_end", fuel_end := some 7 }

/-! Helper lemmas. -/

lemma truthy_isSome {o : Option String} (h : (truthyStr o).isSome) : o.isSome := by
  cases o with
  | none => simp [truthyStr] at h
  | some s => simp

lemma pyOr_isSome_of_left {a b : Option String} (h : (truthyStr a).isSome) :
    (pyOr a b).isSome := by
  unfold pyOr
  cases ha : truthyStr a with
  | none => rw [ha] at h; simp at h
  | some s => simp

lemma pyOr_isSome_of_right {a b : Option String} (h : b.isSome) :
    (pyOr a b).isSome := by
  unfold pyOr
  cases ha : truthyStr a with
  | none => simpa using h
  | some s => simp

lemma updateLast_mem {α : Type} (f : α → α) (P : α → Prop)
    (hf : ∀ x, P x → P (f x)) :
    ∀ xs : List α, (∀ x ∈ xs, P x) → ∀ x ∈ updateLast f xs, P x
  | [], _, x, hx => by simp [updateLast] at hx
  | [a], hall, x, hx => by
      simp [updateLast] at hx
      subst hx
      exact hf a (hall a (by simp))
  | a :: b :: bs, hall, x, hx => by
      rw [updateLast] at hx
      rcases List.mem_cons.mp hx with h | h
      · exact h ▸ hall a (by simp)
      · exact updateLast_mem f P hf (b :: bs)
          (fun y hy => hall y (List.mem_cons_of_mem a hy)) x h

lemma updateLast_map {α β : Type} (f : α → α) (g : α → β)
    (hg : ∀ x, g (f x) = g x) :
    ∀ xs : List α, (updateLast f xs).map g = xs.map g
  | [] => by simp [updateLast]
  | [a] => by simp [updateLast, hg]
  | a :: b :: bs => by
      rw [updateLast, List.map_cons, List.map_cons,
        updateLast_map f g hg (b :: bs)]

lemma updateLast_getLast? {α : Type} (f : α → α) :
    ∀ (xs : List α) (x : α), xs.getLast? = some x →
      (updateLast f xs).getLast? = some (f x)
  | [], x, hx => by simp at hx
  | [a], x, hx => by
      simp at hx
      subst hx
      simp [updateLast]
  | a :: b :: bs, x, hx => by
      rw [List.getLast?_cons_cons] at hx
      have h2 := updateLast_getLast? f (b :: bs) x hx
      rw [updateLast]
      cases hc : updateLast f (b :: bs) with
      | nil => rw [hc] at h2; simp at h2
      | cons c cs =>
          rw [hc] at h2
          rw [List.getLast?_cons_cons, h2]

lemma updateLast_dropLast {α : Type} (f : α → α) :
    ∀ xs : List α, (updateLast f xs).dropLast = xs.dropLast
  | [] => by simp [updateLast]
  | [a] => by simp [updateLast]
  | a :: b :: bs => by
      rw [updateLast]
      cases hc : updateLast f (b :: bs) with
      | nil => cases bs <;> simp [updateLast] at hc
      | cons c cs =>
          have ih := updateLast_dropLast f (b :: bs)
          rw [hc] at ih
          rw [List.dropLast_cons₂, ih, ← List.dropLast_cons₂]

lemma closeOpenStint_closed {fallback : Option String} {s : SessionData}
    (hf : fallback.isSome)
    (hs : ∀ stn ∈ s.stints, stn.start.isSome) :
    ∀ stn ∈ (closeOpenStint fallback s).stints,
      stn.start.isSome ∧ stn.end_.isSome := by
  intro stn hstn
  simp only [closeOpenStint, List.mem_map] at hstn
  obtain ⟨stn0, h0, rfl⟩ := hstn
  by_cases he : stn0.end_ = none
  · rw [if_pos he]
    exact ⟨hs stn0 h0, hf⟩
  · rw [if_neg he]
    exact ⟨hs stn0 h0, Option.isSome_iff_ne_none.mpr he⟩

lemma finaliseSession_closed {lastTs ts : Option String} {s : SessionData}
    (hf : (pyOr ts lastTs).isSome)
    (hstart : s.start.isSome)
    (hs : ∀ stn ∈ s.stints, stn.start.isSome) :
    sessionClosed (finaliseSession lastTs ts s) := by
  unfold finaliseSession
  by_cases he : s.end_ = none
  · rw [if_pos he]
    exact ⟨hstart, hf, closeOpenStint_closed hf hs⟩
  · rw [if_neg he]
    exact ⟨hstart, Option.isSome_iff_ne_none.mpr he, closeOpenStint_closed hf hs⟩

lemma stepSessionStart_inv {st : ParseState} {e : Event}
    (hts : (truthyStr e.ts).isSome) (hlast : st.last_ts.isSome)
    (h : stateInv st) :
    stateInv (stepSessionStart st e) := by
  obtain ⟨h1, h2⟩ := h
  constructor
  · intro s hs
    unfold stepSessionStart at hs
    cases hcur : st.current with
    | none =>
        rw [hcur] at hs
        exact h1 s hs
    | some c =>
        rw [hcur] at hs
        simp only [List.mem_append, List.mem_singleton] at hs
        rcases hs with hs | hs
        · exact h1 s hs
        · subst hs
          obtain ⟨hstart, _, hstn⟩ := h2 c hcur
          exact finaliseSession_closed (pyOr_isSome_of_left hts) hstart hstn
  · intro c hc
    unfold stepSessionStart at hc
    simp only [Option.some_inj] at hc
    subst hc
    exact ⟨truthy_isSome hts, hlast, by simp⟩

lemma stepSessionEnd_inv {st : ParseState} {c : SessionData} {e : Event}
    (hts : (truthyStr e.ts).isSome)
    (h : stateInv st) (hcur : st.current = some c) :
    stateInv (stepSessionEnd st c e) := by
  obtain ⟨h1, h2⟩ := h
  obtain ⟨hstart, _, hstn⟩ := h2 c hcur
  constructor
  · intro s hs
    unfold stepSessionEnd at hs
    simp only [List.mem_append, List.mem_singleton] at hs
    rcases hs with hs | hs
    · exact h1 s hs
    · subst hs
      exact ⟨hstart, truthy_isSome hts,
        closeOpenStint_closed (pyOr_isSome_of_left hts) hstn⟩
  · intro c2 hc2
    simp [stepSessionEnd] at hc2

lemma stepStintStart_inv {st : ParseState} {c : SessionData} {e : Event}
    (hts : (truthyStr e.ts).isSome) (hlast : st.last_ts.isSome)
    (h : stateInv st) (hcur : st.current = some c) :
    stateInv (stepStintStart st c e) := by
  obtain ⟨h1, h2⟩ := h
  obtain ⟨hstart, _, hstn⟩ := h2 c hcur
  refine ⟨fun s hs => h1 s hs, fun c2 hc2 => ?_⟩
  unfold stepStintStart at hc2
  simp only [Option.some_inj] at hc2
  subst hc2
  refine ⟨hstart, hlast, fun stn hstn2 => ?_⟩
  simp only [List.mem_append, List.mem_singleton] at hstn2
  rcases hstn2 with hstn2 | hstn2
  · exact hstn stn hstn2
  · subst hstn2
    exact truthy_isSome hts

lemma stepStintEnd_inv {st : ParseState} {c : SessionData} {e : Event}
    (hlast : st.last_ts.isSome)
    (h : stateInv st) (hcur : st.current = some c) :
    stateInv (stepStintEnd st c e) := by
  obtain ⟨h1, h2⟩ := h
  obtain ⟨hstart, _, hstn⟩ := h2 c hcur
  refine ⟨fun s hs => h1 s hs, fun c2 hc2 => ?_⟩
  unfold stepStintEnd at hc2
  simp only [Option.some_inj] at hc2
  subst hc2
  refine ⟨hstart, hlast, ?_⟩
  dsimp only
  apply updateLast_mem
  · intro x hx; exact hx
  · exact hstn

lemma stepLapComplete_inv {st : ParseState} {c : SessionData} {e : Event}
    (hts : (truthyStr e.ts).isSome) (hlast : st.last_ts.isSome)
    (h : stateInv st) (hcur : st.current = some c) :
    stateInv (stepLapComplete st c e) := by
  obtain ⟨h1, h2⟩ := h
  obtain ⟨hstart, _, hstn⟩ := h2 c hcur
  refine ⟨fun s hs => h1 s hs, fun c2 hc2 => ?_⟩
  unfold stepLapComplete at hc2
  simp only [Option.some_inj] at hc2
  subst hc2
  refine ⟨hstart, hlast, ?_⟩
  dsimp only
  apply updateLast_mem
  · intro x hx; exact hx
  by_cases hnil : c.stints.isEmpty
  · rw [if_pos hnil]
    intro stn hstn2
    simp only [List.mem_singleton] at hstn2
    subst hstn2
    exact truthy_isSome hts
  · rw [if_neg hnil]
    exact hstn

lemma stepSectorSplit_inv {st : ParseState} {e : Event}
    (h : stateInv st) :
    stateInv (stepSectorSplit st e) := by
  obtain ⟨h1, h2⟩ := h
  unfold stepSectorSplit
  cases e.lap with
  | none => exact ⟨h1, h2⟩
  | some n =>
      cases e.split_ms with
      | none => exact ⟨h1, h2⟩
      | some v => exact ⟨h1, h2⟩

lemma backfillStint_start (e : Event) (x : StintData) :
    (backfillStint e x).start = x.start := by
  unfold backfillStint
  by_cases hair : x.weather_air_start = none
  · rw [if_pos hair]
    cases e.air_temp with
    | none =>
        by_cases hgr : x.weather_grip_start = none
        · rw [if_pos hgr]
          cases e.grip <;> rfl
        · rw [if_neg hgr]
    | some a =>
        by_cases hgr : ({ x with weather_air_start := some a } :
            StintData).weather_grip_start = none
        · rw [if_pos hgr]
          cases e.grip <;> rfl
        · rw [if_neg hgr]
  · rw [if_neg hair]
    by_cases hgr : x.weather_grip_start = none
    · rw [if_pos hgr]
      cases e.grip <;> rfl
    · rw [if_neg hgr]

lemma backfillStint_classification (e : Event) (x : StintData) :
    (backfillStint e x).classification = x.classification := by
  unfold backfillStint
  by_cases hair : x.weather_air_start = none
  · rw [if_pos hair]
    cases e.air_temp with
    | none =>
        by_cases hgr : x.weather_grip_start = none
        · rw [if_pos hgr]
          cases e.grip <;> rfl
        · rw [if_neg hgr]
    | some a =>
        by_cases hgr : ({ x with weather_air_start := some a } :
            StintData).weather_grip_start = none
        · rw [if_pos hgr]
          cases e.grip <;> rfl
        · rw [if_neg hgr]
  · rw [if_neg hair]
    by_cases hgr : x.weather_grip_start = none
    · rw [if_pos hgr]
      cases e.grip <;> rfl
    · rw [if_neg hgr]

lemma backfillStint_laps (e : Event) (x : StintData) :
    (backfillStint e x).laps = x.laps := by
  unfold backfillStint
  by_cases hair : x.weather_air_start = none
  · rw [if_pos hair]
    cases e.air_temp with
    | none =>
        by_cases hgr : x.weather_grip_start = none
        · rw [if_pos hgr]
          cases e.grip <;> rfl
        · rw [if_neg hgr]
    | some a =>
        by_cases hgr : ({ x with weather_air_start := some a } :
            StintData).weather_grip_start = none
        · rw [if_pos hgr]
          cases e.grip <;> rfl
        · rw [if_neg hgr]
  · rw [if_neg hair]
    by_cases hgr : x.weather_grip_start = none
    · rw [if_pos hgr]
      cases e.grip <;> rfl
    · rw [if_neg hgr]

lemma wxAir_start (e : Event) (c : SessionData) :
    (wxAir e c).start = c.start := by
  unfold wxAir; cases e.air_temp <;> rfl

lemma wxAir_stints (e : Event) (c : SessionData) :
    (wxAir e c).stints = c.stints := by
  unfold wxAir; cases e.air_temp <;> rfl

lemma wxGrip_start (e : Event) (c : SessionData) :
    (wxGrip e c).start = c.start := by
  unfold wxGrip
  cases e.grip with
  | none => rfl
  | some g =>
      dsimp only
      cases normaliseGrip (some g) <;> rfl

lemma wxGrip_stints (e : Event) (c : SessionData) :
    (wxGrip e c).stints = c.stints := by
  unfold wxGrip
  cases e.grip with
  | none => rfl
  | some g =>
      dsimp only
      cases normaliseGrip (some g) <;> rfl

lemma wxBallast_start (e : Event) (c : SessionData) :
    (wxBallast e c).start = c.start := by
  unfold wxBallast; cases e.ballast <;> rfl

lemma wxBallast_stints (e : Event) (c : SessionData) :
    (wxBallast e c).stints = c.stints := by
  unfold wxBallast; cases e.ballast <;> rfl

lemma wxRestrictor_start (e : Event) (c : SessionData) :
    (wxRestrictor e c).start = c.start := by
  unfold wxRestrictor; cases e.restrictor <;> rfl

lemma wxRestrictor_stints (e : Event) (c : SessionData) :
    (wxRestrictor e c).stints = c.stints := by
  unfold wxRestrictor; cases e.restrictor <;> rfl

lemma wxCarModel_start (e : Event) (c : SessionData) :
    (wxCarModel e c).start = c.start := by
  unfold wxCarModel; cases truthyStr e.car_model <;> rfl

lemma wxCarModel_stints (e : Event) (c : SessionData) :
    (wxCarModel e c).stints = c.stints := by
  unfold wxCarModel; cases truthyStr e.car_model <;> rfl

lemma wxStages_start (e : Event) (c : SessionData) :
    (wxCarModel e (wxRestrictor e (wxBallast e (wxGrip e
      (wxAir e c))))).start = c.start := by
  rw [wxCarModel_start, wxRestrictor_start, wxBallast_start, wxGrip_start,
    wxAir_start]

lemma wxStages_stints (e : Event) (c : SessionData) :
    (wxCarModel e (wxRestrictor e (wxBallast e (wxGrip e
      (wxAir e c))))).stints = c.stints := by
  rw [wxCarModel_stints, wxRestrictor_stints, wxBallast_stints, wxGrip_stints,
    wxAir_stints]

lemma stepWx_inv {st : ParseState} {c : SessionData} {e : Event}
    (hlast : st.last_ts.isSome)
    (h : stateInv st) (hcur : st.current = some c) :
    stateInv (stepWx st c e) := by
  obtain ⟨h1, h2⟩ := h
  obtain ⟨hstart, _, hstn⟩ := h2 c hcur
  refine ⟨fun s hs => h1 s hs, fun c2 hc2 => ?_⟩
  unfold stepWx at hc2
  simp only [Option.some_inj] at hc2
  subst hc2
  refine ⟨?_, hlast, ?_⟩
  · show (wxBackfill e _).start.isSome = true
    unfold wxBackfill
    rw [show (({ (wxCarModel e (wxRestrictor e (wxBallast e (wxGrip e
      (wxAir e c))))) with stints := _ } : SessionData).start =
        (wxCarModel e (wxRestrictor e (wxBallast e (wxGrip e
          (wxAir e c))))).start) from rfl, wxStages_start]
    exact hstart
  · show ∀ stn ∈ (wxBackfill e _).stints, stn.start.isSome = true
    unfold wxBackfill
    dsimp only
    rw [wxStages_stints]
    apply updateLast_mem _ _ ?_ _ hstn
    intro x hx
    rw [backfillStint_start]
    exact hx

lemma dispatchEvent_inv {st : ParseState} {e : Event}
    (hts : (truthyStr e.ts).isSome) (hlast : st.last_ts.isSome)
    (h : stateInv st) :
    stateInv (dispatchEvent st e) := by
  unfold dispatchEvent
  by_cases h1 : e.event = some "session_start"
  · rw [if_pos h1]; exact stepSessionStart_inv hts hlast h
  rw [if_neg h1]
  cases hcur : st.current with
  | none => exact h
  | some c =>
      dsimp only
      by_cases h2 : e.event = some "session_end"
      · rw [if_pos h2]; exact stepSessionEnd_inv hts h hcur
      rw [if_neg h2]
      by_cases h3 : e.event = some "stint_start"
      · rw [if_pos h3]; exact stepStintStart_inv hts hlast h hcur
      rw [if_neg h3]
      by_cases h4 : e.event = some "stint_end"
      · rw [if_pos h4]; exact stepStintEnd_inv hlast h hcur
      rw [if_neg h4]
      by_cases h5 : e.event = some "lap_complete"
      · rw [if_pos h5]; exact stepLapComplete_inv hts hlast h hcur
      rw [if_neg h5]
      by_cases h6 : e.event = some "sector_split"
      · rw [if_pos h6]; exact stepSectorSplit_inv h
      rw [if_neg h6]
      by_cases h7 : e.event = some "wx"
      · rw [if_pos h7]; exact stepWx_inv hlast h hcur
      rw [if_neg h7]
      exact h

lemma parseStep_eq_of_truthy {st : ParseState} {e : Event} {v : String}
    (hv : truthyStr e.ts = some v) :
    parseStep st e = dispatchEvent { st with last_ts := e.ts } e := by
  unfold parseStep tsUpdate
  rw [hv]

lemma parseStep_inv {st : ParseState} {e : Event}
    (hts : (truthyStr e.ts).isSome) (h : stateInv st) :
    stateInv (parseStep st e) := by
  obtain ⟨v, hv⟩ := Option.isSome_iff_exists.mp hts
  rw [parseStep_eq_of_truthy hv]
  have hlast : ({ st with last_ts := e.ts } : ParseState).last_ts.isSome :=
    truthy_isSome hts
  have h1 : stateInv { st with last_ts := e.ts } := by
    obtain ⟨ha, hb⟩ := h
    exact ⟨ha, fun c hc => ⟨(hb c hc).1, hlast, (hb c hc).2.2⟩⟩
  exact dispatchEvent_inv hts hlast h1

lemma foldl_parseStep_inv {evs : List Event} :
    ∀ st : ParseState, (∀ e ∈ evs, (truthyStr e.ts).isSome) → stateInv st →
      stateInv (evs.foldl parseStep st) := by
  induction evs with
  | nil => intro st _ h; exact h
  | cons e es ih =>
      intro st hall h
      rw [List.foldl_cons]
      exact ih (parseStep st e) (fun x hx => hall x (List.mem_cons_of_mem e hx))
        (parseStep_inv (hall e (by simp)) h)

lemma extendsList_refl {α : Type} (xs : List α) : extendsList xs xs :=
  List.take_length xs

lemma extendsList_append {α : Type} (xs ys : List α) :
    extendsList xs (xs ++ ys) :=
  List.take_left xs ys

lemma extendsList_trans {α : Type} {xs ys zs : List α}
    (h1 : extendsList xs ys) (h2 : extendsList ys zs) : extendsList xs zs := by
  unfold extendsList at h1 h2 ⊢
  have hlen : xs.length ≤ ys.length := by
    have := congrArg List.length h1
    rw [List.length_take] at this
    omega
  calc zs.take xs.length = (zs.take ys.length).take xs.length := by
        rw [List.take_take, min_eq_left hlen]
    _ = ys.take xs.length := by rw [h2]
    _ = xs := h1

lemma closeOpenStint_classifications (fb : Option String) (s : SessionData) :
    (closeOpenStint fb s).stints.map StintData.classification =
      s.stints.map StintData.classification := by
  unfold closeOpenStint
  dsimp only
  rw [List.map_map]
  apply List.map_congr_left
  intro x _
  by_cases he : x.end_ = none
  · simp only [Function.comp_apply, if_pos he]
  · simp only [Function.comp_apply, if_neg he]

lemma finaliseSession_classifications (l t : Option String) (s : SessionData) :
    (finaliseSession l t s).stints.map StintData.classification =
      s.stints.map StintData.classification := by
  unfold finaliseSession
  by_cases he : s.end_ = none
  · rw [if_pos he]
    exact closeOpenStint_classifications _ _
  · rw [if_neg he]
    exact closeOpenStint_classifications _ _

lemma stintClassifications_last_ts (st : ParseState) (x : Option String) :
    stintClassifications { st with last_ts := x } = stintClassifications st :=
  rfl

lemma stepStintEnd_classifications (st : ParseState) (c : SessionData)
    (e : Event) (hcur : st.current = some c) :
    stintClassifications (stepStintEnd st c e) = stintClassifications st := by
  unfold stintClassifications stepStintEnd
  rw [hcur]
  simp only [List.flatMap_append, List.flatMap_cons, List.flatMap_nil,
    List.append_nil]
  rw [updateLast_map
    (fun stn => { stn with end_ := e.ts, fuel_end := r1 e.fuel_end })
    StintData.classification (fun _ => rfl)]

lemma stepWx_classifications (st : ParseState) (c : SessionData)
    (e : Event) (hcur : st.current = some c) :
    stintClassifications (stepWx st c e) = stintClassifications st := by
  unfold stintClassifications stepWx wxBackfill
  rw [hcur]
  simp only [List.flatMap_append, List.flatMap_cons, List.flatMap_nil,
    List.append_nil]
  rw [wxStages_stints,
    updateLast_map (backfillStint e) StintData.classification
      (backfillStint_classification e)]

lemma stepSectorSplit_classifications (st : ParseState) (e : Event) :
    stintClassifications (stepSectorSplit st e) = stintClassifications st := by
  unfold stepSectorSplit
  cases e.lap with
  | none => rfl
  | some n => cases e.split_ms <;> rfl

lemma stepSessionStart_classifications (st : ParseState) (e : Event) :
    stintClassifications (stepSessionStart st e) = stintClassifications st := by
  unfold stintClassifications stepSessionStart
  cases hcur : st.current with
  | none => simp
  | some c =>
      dsimp only
      rw [List.flatMap_append, List.flatMap_append]
      simp only [List.flatMap_cons, List.flatMap_nil, List.append_nil,
        List.flatMap_append, List.flatMap_cons]
      rw [finaliseSession_classifications]
      simp

lemma stepSessionEnd_classifications (st : ParseState) (c : SessionData)
    (e : Event) (hcur : st.current = some c) :
    stintClassifications (stepSessionEnd st c e) = stintClassifications st := by
  unfold stintClassifications stepSessionEnd
  rw [hcur]
  simp only [List.flatMap_append, List.flatMap_cons, List.flatMap_nil,
    List.append_nil]
  rw [closeOpenStint_classifications]

lemma stepStintStart_classifications (st : ParseState) (c : SessionData)
    (e : Event) (hcur : st.current = some c) :
    stintClassifications (stepStintStart st c e) =
      stintClassifications st ++ [classifyFuel (r1 e.fuel_start)] := by
  unfold stintClassifications stepStintStart
  rw [hcur]
  dsimp only
  rw [List.flatMap_append, List.flatMap_append]
  simp only [List.flatMap_cons, List.flatMap_nil, List.append_nil]
  rw [List.map_append, List.append_assoc]
  rfl

lemma updateLast_classification_appendLap (lap : LapData)
    (xs : List StintData) :
    (updateLast (fun stn => { stn with laps := stn.laps ++ [lap] })
      xs).map StintData.classification = xs.map StintData.classification :=
  updateLast_map (fun stn => { stn with laps := stn.laps ++ [lap] })
    StintData.classification (fun _ => rfl) xs

lemma stepLapComplete_classifications (st : ParseState) (c : SessionData)
    (e : Event) (hcur : st.current = some c) :
    stintClassifications (stepLapComplete st c e) =
      stintClassifications st ++
        (if c.stints.isEmpty then ["unknown"] else []) := by
  unfold stintClassifications stepLapComplete
  rw [hcur]
  simp only [List.flatMap_append, List.flatMap_cons, List.flatMap_nil,
    List.append_nil]
  rw [updateLast_classification_appendLap]
  by_cases hnil : c.stints.isEmpty
  · rw [if_pos hnil, if_pos hnil]
    rw [List.isEmpty_iff] at hnil
    rw [hnil]
    simp
  · rw [if_neg hnil, if_neg hnil]
    simp

lemma dispatchEvent_classifications (st : ParseState) (e : Event) :
    extendsList (stintClassifications st)
      (stintClassifications (dispatchEvent st e)) := by
  unfold dispatchEvent
  by_cases h1 : e.event = some "session_start"
  · rw [if_pos h1, stepSessionStart_classifications]
    exact extendsList_refl _
  rw [if_neg h1]
  cases hcur : st.current with
  | none => exact extendsList_refl _
  | some c =>
      dsimp only
      by_cases h2 : e.event = some "session_end"
      · rw [if_pos h2, stepSessionEnd_classifications st c e hcur]
        exact extendsList_refl _
      rw [if_neg h2]
      by_cases h3 : e.event = some "stint_start"
      · rw [if_pos h3, stepStintStart_classifications st c e hcur]
        exact extendsList_append _ _
      rw [if_neg h3]
      by_cases h4 : e.event = some "stint_end"
      · rw [if_pos h4, stepStintEnd_classifications st c e hcur]
        exact extendsList_refl _
      rw [if_neg h4]
      by_cases h5 : e.event = some "lap_complete"
      · rw [if_pos h5, stepLapComplete_classifications st c e hcur]
        exact extendsList_append _ _
      rw [if_neg h5]
      by_cases h6 : e.event = some "sector_split"
      · rw [if_pos h6, stepSectorSplit_classifications]
        exact extendsList_refl _
      rw [if_neg h6]
      by_cases h7 : e.event = some "wx"
      · rw [if_pos h7, stepWx_classifications st c e hcur]
        exact extendsList_refl _
      rw [if_neg h7]
      exact extendsList_refl _

lemma parseStep_classifications (st : ParseState) (e : Event) :
    extendsList (stintClassifications st)
      (stintClassifications (parseStep st e)) := by
  unfold parseStep tsUpdate
  cases h : truthyStr e.ts with
  | none =>
      dsimp only
      exact dispatchEvent_classifications st e
  | some v =>
      dsimp only
      rw [← stintClassifications_last_ts st e.ts]
      exact dispatchEvent_classifications _ e

lemma foldl_parseStep_classifications (evs : List Event) :
    ∀ st : ParseState,
      extendsList (stintClassifications st)
        (stintClassifications (evs.foldl parseStep st)) := by
  induction evs with
  | nil => intro st; exact extendsList_refl _
  | cons e es ih =>
      intro st
      rw [List.foldl_cons]
      exact extendsList_trans (parseStep_classifications st e)
        (ih (parseStep st e))

lemma finishParse_closed {st : ParseState} (h : stateInv st) :
    ∀ s ∈ finishParse st, sessionClosed s := by
  obtain ⟨h1, h2⟩ := h
  intro s hs
  unfold finishParse at hs
  cases hcur : st.current with
  | none => rw [hcur] at hs; exact h1 s hs
  | some c =>
      rw [hcur] at hs
      simp only [List.mem_append, List.mem_singleton] at hs
      rcases hs with hs | hs
      · exact h1 s hs
      · subst hs
        obtain ⟨hstart, hlast, hstn⟩ := h2 c hcur
        exact finaliseSession_closed (pyOr_isSome_of_right hlast) hstart hstn

lemma tsUpdate_current (st : ParseState) (e : Event) :
    (tsUpdate st e).current = st.current := by
  unfold tsUpdate; cases truthyStr e.ts <;> rfl

lemma tsUpdate_classifications (st : ParseState) (e : Event) :
    stintClassifications (tsUpdate st e) = stintClassifications st := by
  unfold tsUpdate; cases truthyStr e.ts <;> rfl

lemma tsUpdate_sessions (st : ParseState) (e : Event) :
    (tsUpdate st e).sessions = st.sessions := by
  unfold tsUpdate; cases truthyStr e.ts <;> rfl

lemma tsUpdate_lapCount (st : ParseState) (e : Event) :
    stateLapCount (tsUpdate st e) = stateLapCount st := by
  unfold tsUpdate; cases truthyStr e.ts <;> rfl

lemma dispatchEvent_eq_of_none {st : ParseState} {e : Event}
    (hcur : st.current = none) (hne : ¬e.event = some "session_start") :
    dispatchEvent st e = st := by
  unfold dispatchEvent
  rw [if_neg hne, hcur]

lemma dispatchEvent_eq_lapComplete {st : ParseState} {c : SessionData}
    {e : Event} (hcur : st.current = some c)
    (he : e.event = some "lap_complete") :
    dispatchEvent st e = stepLapComplete st c e := by
  unfold dispatchEvent
  rw [he, hcur]
  rw [if_neg (by decide)]
  dsimp only
  rw [if_neg (by decide), if_neg (by decide), if_neg (by decide), if_pos rfl]

lemma dispatchEvent_eq_stintEnd {st : ParseState} {c : SessionData}
    {e : Event} (hcur : st.current = some c)
    (he : e.event = some "stint_end") :
    dispatchEvent st e = stepStintEnd st c e := by
  unfold dispatchEvent
  rw [he, hcur]
  rw [if_neg (by decide)]
  dsimp only
  rw [if_neg (by decide), if_neg (by decide), if_pos rfl]

lemma dispatchEvent_eq_stintStart {st : ParseState} {c : SessionData}
    {e : Event} (hcur : st.current = some c)
    (he : e.event = some "stint_start") :
    dispatchEvent st e = stepStintStart st c e := by
  unfold dispatchEvent
  rw [he, hcur]
  rw [if_neg (by decide)]
  dsimp only
  rw [if_neg (by decide), if_pos rfl]

lemma updateLast_lapSum (lap : LapData) :
    ∀ xs : List StintData, xs ≠ [] →
      ((updateLast (fun stn => { stn with laps := stn.laps ++ [lap] })
        xs).map (fun s => s.laps.length)).sum =
      (xs.map (fun s => s.laps.length)).sum + 1
  | [], h => absurd rfl h
  | [a], _ => by simp [updateLast]
  | a :: b :: bs, _ => by
      rw [updateLast]
      rw [List.map_cons, List.map_cons, List.sum_cons, List.sum_cons,
        updateLast_lapSum lap (b :: bs) (by simp)]
      omega

lemma stepLapComplete_count {st : ParseState} {c : SessionData} {e : Event}
    (hcur : st.current = some c) :
    stateLapCount (stepLapComplete st c e) = stateLapCount st + 1 := by
  unfold stateLapCount stepLapComplete sessionLapCount
  rw [hcur]
  dsimp only
  by_cases hnil : c.stints.isEmpty
  · rw [if_pos hnil]
    rw [List.isEmpty_iff] at hnil
    rw [hnil]
    simp [updateLast]
  · rw [if_neg hnil]
    rw [List.isEmpty_iff] at hnil
    rw [updateLast_lapSum _ c.stints hnil]
    omega

lemma bestsStep_skip {stn : StintData} (h1 : stn.classification ≠ "race")
    (h2 : stn.classification ≠ "qualy")
    (acc : Option BestEntry × Option BestEntry) :
    bestsStep acc stn = acc := by
  unfold bestsStep
  cases stn.best_lap_ms with
  | none => rfl
  | some best =>
      dsimp only
      rw [if_neg h1, if_neg h2]

lemma bestsFold_filter (acc : Option BestEntry × Option BestEntry) :
    ∀ stints : List StintData,
      stints.foldl bestsStep acc =
        (stints.filter (fun s =>
          s.classification == "race" || s.classification == "qualy")).foldl
            bestsStep acc
  | [] => rfl
  | a :: as => by
      rw [List.foldl_cons]
      by_cases hp : (a.classification == "race" ||
          a.classification == "qualy") = true
      · rw [List.filter_cons, if_pos hp, List.foldl_cons]
        exact bestsFold_filter (bestsStep acc a) as
      · rw [List.filter_cons, if_neg hp]
        simp only [Bool.or_eq_true, beq_iff_eq, not_or] at hp
        rw [bestsStep_skip hp.1 hp.2 acc]
        exact bestsFold_filter acc as

lemma pyInt_eq_floor {q : ℚ} (h : 0 ≤ q) : pyInt q = ⌊q⌋ := by
  unfold pyInt
  rw [Rat.floor_def]
  exact Int.tdiv_eq_ediv (Rat.num_nonneg.mpr h) (Int.ofNat_nonneg q.den)

lemma runValidObs_from (a : Bool) :
    ∀ obs : List Bool,
      obs.foldl (fun x b => lapValidStep x (some b)) (some a) =
        some (a && obs.all id)
  | [] => by simp
  | b :: bs => by
      rw [List.foldl_cons]
      show (bs.foldl (fun x b => lapValidStep x (some b)) (some (a && b))) = _
      rw [runValidObs_from (a && b) bs]
      simp [Bool.and_assoc]

/-! Claim theorems. -/

/-- C1: reconstruction is deterministic: the session tree and the derived
summary are pure functions of the event sequence, so two reconstruction runs
over the same sequence produce identical Session/Stint/Lap trees and
identical summary output (the generated_at field, a wall-clock value written
outside the builder, is not part of the embedded summary). -/
theorem C1_determinism : ∀ evs1 evs2 : List Event, evs1 = evs2 →
    reconstruct evs1 = reconstruct evs2 ∧ buildView evs1 = buildView evs2 := by
  intro e1 e2 h
  subst h
  exact ⟨rfl, rfl⟩

theorem C1_determinism_witness :
    reconstruct c2Events = reconstruct c2Events ∧
      buildView c2Events = buildView c2Events :=
  C1_determinism c2Events c2Events rfl

/-- C2: the end-to-end scenario: the stream session_start, stint_start with
fuel 30, two valid lap_complete events of 95000 and 94000 ms, stint_end,
session_end reconstructs to exactly one session with exactly one stint
classified race, whose best lap is 94000 ms and formats to 1:34.000, with 2
valid laps and 0 invalid laps. -/
theorem C2_end_to_end :
    (reconstruct c2Events).length = 1 ∧
    ((reconstruct c2Events).flatMap SessionData.stints).length = 1 ∧
    ((reconstruct c2Events).flatMap SessionData.stints).map
      StintData.classification = ["race"] ∧
    ((reconstruct c2Events).flatMap SessionData.stints).map
      StintData.best_lap_ms = [some 94000] ∧
    ((reconstruct c2Events).flatMap SessionData.stints).map
      (fun s => fmt_hms s.best_lap_ms) = [some "1:34.000"] ∧
    ((reconstruct c2Events).flatMap SessionData.stints).map
      StintData.valid_laps = [2] ∧
    ((reconstruct c2Events).flatMap SessionData.stints).map
      StintData.invalid_laps = [0] ∧
    (reconstruct c2Events).map SessionData.total_valid = [2] ∧
    (reconstruct c2Events).map SessionData.total_invalid = [0] ∧
    (buildView c2Events).session.map
      (fun b => b.best_race.map BestView.lap_time_hms) =
      [some (some "1:34.000")] := by
  decide

/-- C3: when every event of the sequence carries a (truthy) timestamp, every
session and every stint of the reconstructed tree has both a start and an end
timestamp (the close rule falls back to the last timestamp seen in the log);
in particular the truncated stream c3TruncEvents, which lacks its trailing
stint_end and session_end, still yields a closed session and stint whose end
equals the last event timestamp T3. -/
theorem C3_endpoints :
    (∀ evs : List Event, (∀ e ∈ evs, (truthyStr e.ts).isSome) →
      ∀ s ∈ reconstruct evs, sessionClosed s) ∧
    (reconstruct c3TruncEvents).map
      (fun s => (s.end_, s.stints.map StintData.end_)) =
      [(some "T3", [some "T3"])] := by
  constructor
  · intro evs hall
    unfold reconstruct parseEvents
    apply finishParse_closed
    apply foldl_parseStep_inv initState hall
    constructor
    · intro s hs
      simp [initState] at hs
    · intro c hc
      simp [initState] at hc
  · decide

theorem C3_endpoints_witness :
    (∀ e ∈ c3TruncEvents, (truthyStr e.ts).isSome) ∧
      ∀ s ∈ reconstruct c3TruncEvents, sessionClosed s :=
  ⟨by decide, C3_endpoints.1 c3TruncEvents (by decide)⟩

/-- C4: the millisecond canonicalisation maps every value that is at most 0,
at least 6000000, or equal to the sentinel 2147483647 to unknown, and keeps
every other integer value; in particular 0, 6000000 and 2147483647 become
unknown while 5999999 is kept. -/
theorem C4_as_int_ms :
    (∀ v : ℤ, v ≤ 0 → as_int_ms (some v) = none) ∧
    (∀ v : ℤ, 6000000 ≤ v → as_int_ms (some v) = none) ∧
    (∀ v : ℤ, 0 < v → v < 6000000 → as_int_ms (some v) = some v) ∧
    as_int_ms (some 0) = none ∧
    as_int_ms (some 6000000) = none ∧
    as_int_ms (some 2147483647) = none ∧
    as_int_ms (some 5999999) = some 5999999 := by
  refine ⟨?_, ?_, ?_, by decide, by decide, by decide, by decide⟩
  · intro v h
    show (if v ≤ 0 ∨ 100 * 60 * 1000 ≤ v ∨ v = SENTINEL_LAST_BEST_MS then
        none else some v) = none
    rw [if_pos (Or.inl h)]
  · intro v h
    show (if v ≤ 0 ∨ 100 * 60 * 1000 ≤ v ∨ v = SENTINEL_LAST_BEST_MS then
        none else some v) = none
    rw [if_pos (Or.inr (Or.inl (by omega)))]
  · intro v h1 h2
    show (if v ≤ 0 ∨ 100 * 60 * 1000 ≤ v ∨ v = SENTINEL_LAST_BEST_MS then
        none else some v) = some v
    rw [if_neg ?_]
    simp only [SENTINEL_LAST_BEST_MS]
    omega

theorem C4_as_int_ms_witness :
    as_int_ms (some (-5)) = none ∧ as_int_ms (some 7000000) = none ∧
      as_int_ms (some 95000) = some 95000 :=
  ⟨C4_as_int_ms.1 (-5) (by decide), C4_as_int_ms.2.1 7000000 (by decide),
    C4_as_int_ms.2.2.1 95000 (by decide) (by decide)⟩

/-- C5: the per-lap validity emitted with lap_complete is the logical AND of
all validity observations made during the lap and null when none was made;
once false it stays false whatever is observed later; in particular
[true, true, false] gives false, [true, true] gives true, [] gives null. -/
theorem C5_validity_and :
    (∀ obs : List Bool,
      runValidObs obs = if obs.isEmpty then none else some (obs.all id)) ∧
    (∀ pre post : List Bool,
      runValidObs (pre ++ false :: post) = some false) ∧
    runValidObs [true, true, false] = some false ∧
    runValidObs [true, true] = some true ∧
    runValidObs [] = none := by
  have hmain : ∀ obs : List Bool,
      runValidObs obs = if obs.isEmpty then none else some (obs.all id) := by
    intro obs
    cases obs with
    | nil => rfl
    | cons b bs =>
        unfold runValidObs
        rw [List.foldl_cons]
        show bs.foldl (fun x b => lapValidStep x (some b)) (some b) = _
        rw [runValidObs_from b bs]
        simp [List.all_cons]
  refine ⟨hmain, ?_, by decide, by decide, by decide⟩
  intro pre post
  rw [hmain (pre ++ false :: post)]
  simp [List.all_append, List.all_cons]

/-- C6: a stint classification is fixed at creation from the starting fuel of
the stint_start event: race exactly when the rounded fuel exceeds the 20.0
threshold, qualy otherwise; processing any further events only appends
classifications, never changes an existing one (the classification list of a
parse prefix is an initial segment of the list of any extension); in
particular a stint starting with fuel 21.0 stays race although fuel 5.0 is
seen later within the stint. -/
theorem C6_classification_fixed :
    (∀ evs more : List Event,
      extendsList (stintClassifications (parseEvents evs))
        (stintClassifications (parseEvents (evs ++ more)))) ∧
    (∀ (st : ParseState) (c : SessionData) (e : Event),
      st.current = some c → e.event = some "stint_start" →
      stintClassifications (parseStep st e) =
        stintClassifications st ++ [classifyFuel (r1 e.fuel_start)]) ∧
    (∀ q : ℚ, FUEL_QUALY_THRESHOLD < q → classifyFuel (some q) = "race") ∧
    (∀ q : ℚ, q ≤ FUEL_QUALY_THRESHOLD → classifyFuel (some q) = "qualy") ∧
    ((reconstruct c6Events).flatMap SessionData.stints).map
      StintData.classification = ["race"] := by
  refine ⟨?_, ?_, ?_, ?_, by decide⟩
  · intro evs more
    unfold parseEvents
    rw [List.foldl_append]
    exact foldl_parseStep_classifications more (evs.foldl parseStep initState)
  · intro st c e hcur he
    unfold parseStep
    have hcur2 : (tsUpdate st e).current = some c := by
      rw [tsUpdate_current, hcur]
    rw [dispatchEvent_eq_stintStart hcur2 he,
      stepStintStart_classifications _ c e hcur2, tsUpdate_classifications]
  · intro q h
    show (if FUEL_QUALY_THRESHOLD < q then "race" else "qualy") = "race"
    rw [if_pos h]
  · intro q h
    show (if FUEL_QUALY_THRESHOLD < q then "race" else "qualy") = "qualy"
    rw [if_neg (not_lt.mpr h)]

theorem C6_classification_fixed_witness :
    FUEL_QUALY_THRESHOLD < (21 : ℚ) ∧
      classifyFuel (some 21) = "race" ∧
      stintClassifications (parseStep stOpenSession c6WitnessEvent) =
        stintClassifications stOpenSession ++
          [classifyFuel (r1 c6WitnessEvent.fuel_start)] :=
  ⟨by decide, C6_classification_fixed.2.2.1 21 (by decide),
    C6_classification_fixed.2.1 stOpenSession openMonza c6WitnessEvent
      (by decide) rfl⟩

/-- C7 counterexample, two concrete failures of the claim as stated: a
lap_complete arriving with no session open is dropped by the guard at the top
of the parse loop (the lone lap_complete stream reconstructs to an empty tree
with zero laps, not one); and a lap_complete arriving with no OPEN stint but
an existing closed one creates no synthetic stint: in c7ClosedStintEvents the
lap lands inside the stint already closed at T3, and the tree holds exactly
one stint. -/
theorem C7_counterexample :
    (c7LoneLap.event = some "lap_complete" ∧
      reconstruct [c7LoneLap] = [] ∧
      treeLapCount (reconstruct [c7LoneLap]) = 0) ∧
    (((reconstruct c7ClosedStintEvents).flatMap SessionData.stints).length
        = 1 ∧
      ((reconstruct c7ClosedStintEvents).flatMap SessionData.stints).map
        (fun s => (s.end_, s.laps.length, s.classification)) =
        [(some "T3", 1, "race")]) := by
  decide

/-- C7 (amended): while a session is open every lap_complete event adds
exactly one lap to the tree; the lap is appended to the most recent stint of
the session even when that stint is already closed (which leaves that stint's
start, end, classification and every earlier stint untouched, and the
appended lap carries the event data); a synthetic stint with start equal to
the event timestamp and unknown fuel is created only when the session has no
stint at all; a lap_complete with no open session adds no lap. -/
theorem C7_lap_append :
    (∀ (st : ParseState) (c : SessionData) (e : Event),
      st.current = some c → e.event = some "lap_complete" →
      stateLapCount (parseStep st e) = stateLapCount st + 1) ∧
    (∀ (st : ParseState) (c : SessionData) (e : Event) (stn0 : StintData),
      st.current = some c → e.event = some "lap_complete" →
      c.stints.getLast? = some stn0 →
      (parseStep st e).current.map (fun c2 => c2.stints.dropLast) =
          some c.stints.dropLast ∧
        ((parseStep st e).current.bind SessionData.active_stint).map
          (fun stn => (stn.start, stn.end_, stn.classification,
            stn.laps.length)) =
          some (stn0.start, stn0.end_, stn0.classification,
            stn0.laps.length + 1) ∧
        (((parseStep st e).current.bind SessionData.active_stint).bind
          (fun stn => stn.laps.getLast?)).map
            (fun l => (l.lap, l.lap_ms, l.is_valid)) =
          some (e.lap, e.lap_ms, e.is_valid)) ∧
    (∀ (st : ParseState) (c : SessionData) (e : Event),
      st.current = some c → c.stints = [] → e.event = some "lap_complete" →
      ((parseStep st e).current.bind SessionData.active_stint).map
        (fun stn => (stn.start, stn.fuel_start, stn.laps.length)) =
        some (e.ts, none, 1)) ∧
    (∀ (st : ParseState) (e : Event),
      st.current = none → e.event = some "lap_complete" →
      stateLapCount (parseStep st e) = stateLapCount st) := by
  refine ⟨?_, ?_, ?_, ?_⟩
  · intro st c e hcur he
    unfold parseStep
    have hcur2 : (tsUpdate st e).current = some c := by
      rw [tsUpdate_current, hcur]
    rw [dispatchEvent_eq_lapComplete hcur2 he, stepLapComplete_count hcur2,
      tsUpdate_lapCount]
  · intro st c e stn0 hcur he hlast
    unfold parseStep
    have hcur2 : (tsUpdate st e).current = some c := by
      rw [tsUpdate_current, hcur]
    rw [dispatchEvent_eq_lapComplete hcur2 he]
    unfold stepLapComplete
    have hne : ¬c.stints.isEmpty = true := by
      intro h
      rw [List.isEmpty_iff] at h
      rw [h] at hlast
      simp at hlast
    rw [if_neg hne]
    refine ⟨?_, ?_, ?_⟩
    · rw [Option.map_some']
      dsimp only
      rw [updateLast_dropLast]
    · dsimp only [Option.bind]
      unfold SessionData.active_stint
      dsimp only
      rw [updateLast_getLast? _ c.stints stn0 hlast]
      rw [Option.map_some']
      dsimp only
      rw [List.length_append]
      rfl
    · dsimp only [Option.bind]
      unfold SessionData.active_stint
      dsimp only
      rw [updateLast_getLast? _ c.stints stn0 hlast]
      dsimp only
      rw [List.getLast?_concat]
      rw [Option.map_some']
  · intro st c e hcur hnil he
    unfold parseStep
    have hcur2 : (tsUpdate st e).current = some c := by
      rw [tsUpdate_current, hcur]
    rw [dispatchEvent_eq_lapComplete hcur2 he]
    unfold stepLapComplete
    rw [hnil]
    rfl
  · intro st e hcur he
    unfold parseStep
    have hcur2 : (tsUpdate st e).current = none := by
      rw [tsUpdate_current, hcur]
    rw [dispatchEvent_eq_of_none hcur2 (by rw [he]; decide), tsUpdate_lapCount]

theorem C7_lap_append_witness :
    stateLapCount (parseStep stOpenSession c7LoneLap) =
        stateLapCount stOpenSession + 1 ∧
      ((parseStep stClosedStint c7LoneLap).current.bind
        SessionData.active_stint).map
          (fun stn => (stn.start, stn.end_, stn.classification,
            stn.laps.length)) =
        some (closedStint30.start, closedStint30.end_,
          closedStint30.classification, closedStint30.laps.length + 1) ∧
      (parseStep stClosedStint c7LoneLap).current.map
          (fun c2 => c2.stints.dropLast) = some spaSession.stints.dropLast ∧
      ((parseStep stOpenSession c7LoneLap).current.bind
        SessionData.active_stint).map
          (fun stn => (stn.start, stn.fuel_start, stn.laps.length)) =
        some (c7LoneLap.ts, none, 1) :=
  ⟨C7_lap_append.1 stOpenSession openMonza c7LoneLap (by decide) rfl,
    (C7_lap_append.2.1 stClosedStint spaSession c7LoneLap closedStint30
      (by decide) rfl (by decide)).2.1,
    (C7_lap_append.2.1 stClosedStint spaSession c7LoneLap closedStint30
      (by decide) rfl (by decide)).1,
    C7_lap_append.2.2.1 stOpenSession openMonza c7LoneLap (by decide) rfl rfl⟩

/-- C8 counterexample: the per-stint average of the source truncates the mean
toward zero (Python int() of the mean) instead of rounding to the nearest
millisecond: on lap times 95000, 95001, 95001 the code yields 95000 while
the nearest-rounded mean claimed by the spec is 95001. -/
theorem C8_counterexample :
    c8Stint.average_lap_ms = some 95000 ∧
      specAverageLapMs c8Stint = some 95001 ∧
      ((some 95000 : Option ℤ) ≠ some 95001) := by
  refine ⟨by decide, ?_, by decide⟩
  have h1 : lapTimes false c8Stint.laps = [95000, 95001, 95001] := by decide
  have h2 : ratMean [95000, 95001, 95001] = (285002 : ℚ) / 3 := by
    unfold ratMean
    rw [Rat.divInt_eq_div]
    norm_num
  simp only [specAverageLapMs, h1, h2]
  norm_num [round_eq]

/-- C8 (amended): the per-stint average lap time is the arithmetic mean of
the truthy (known, non-zero) lap times truncated toward zero — the floor of
the mean whenever all those lap times are non-negative — and null when no lap
has such a time. -/
theorem C8_average_floor_of_mean :
    ∀ st : StintData,
      (lapTimes false st.laps = [] → st.average_lap_ms = none) ∧
      (lapTimes false st.laps ≠ [] →
        (∀ m ∈ lapTimes false st.laps, 0 ≤ m) →
        st.average_lap_ms = some ⌊ratMean (lapTimes false st.laps)⌋) := by
  intro st
  constructor
  · intro h
    unfold StintData.average_lap_ms
    rw [h]
  · intro hne hpos
    cases hl : lapTimes false st.laps with
    | nil => exact absurd hl hne
    | cons x xs =>
        unfold StintData.average_lap_ms
        rw [hl]
        dsimp only
        congr 1
        apply pyInt_eq_floor
        unfold ratMean
        apply Rat.divInt_nonneg
        · apply List.sum_nonneg
          intro m hm
          exact hpos m (hl ▸ hm)
        · exact Int.ofNat_nonneg _

theorem C8_average_floor_of_mean_witness :
    lapTimes false c8WitnessStint.laps ≠ [] ∧
      c8WitnessStint.average_lap_ms =
        some ⌊ratMean (lapTimes false c8WitnessStint.laps)⌋ :=
  ⟨by decide,
    (C8_average_floor_of_mean c8WitnessStint).2 (by decide) (by decide)⟩

/-- C9 counterexample: a second stint_end on an already closed stint does not
leave the stint unchanged: in c9Events the stint closed at T3 with fuel 10.0
ends up with end T4 and fuel 5.0 after the second stint_end. -/
theorem C9_counterexample :
    ((reconstruct c9Events).flatMap SessionData.stints).map
        (fun s => (s.end_, s.fuel_end)) = [(some "T4", some 5)] ∧
      ((some "T4", (some 5 : Option ℚ)) ≠
        ((some "T3" : Option String), (some 10 : Option ℚ))) := by
  decide

/-- C9 (amended): stint_end unconditionally sets the end timestamp and the
rounded end fuel of the most recent stint of the open session — also when
that stint is already closed, overwriting the earlier values — leaving the
other stints untouched; with no stint, or no open session, the event changes
nothing in the tree. -/
theorem C9_stint_end_overwrites :
    (∀ (st : ParseState) (c : SessionData) (e : Event) (stn0 : StintData),
      st.current = some c → e.event = some "stint_end" →
      c.stints.getLast? = some stn0 →
      ((parseStep st e).current.bind SessionData.active_stint) =
          some { stn0 with end_ := e.ts, fuel_end := r1 e.fuel_end } ∧
        (parseStep st e).current.map (fun c2 => c2.stints.dropLast) =
          some c.stints.dropLast) ∧
    (∀ (st : ParseState) (c : SessionData) (e : Event),
      st.current = some c → e.event = some "stint_end" → c.stints = [] →
      (parseStep st e).current = some c) ∧
    (∀ (st : ParseState) (e : Event),
      st.current = none → e.event = some "stint_end" →
      (parseStep st e).sessions = st.sessions ∧
        (parseStep st e).current = none) := by
  refine ⟨?_, ?_, ?_⟩
  · intro st c e stn0 hcur he hlast
    unfold parseStep
    have hcur2 : (tsUpdate st e).current = some c := by
      rw [tsUpdate_current, hcur]
    rw [dispatchEvent_eq_stintEnd hcur2 he]
    unfold stepStintEnd
    constructor
    · dsimp only [Option.bind]
      unfold SessionData.active_stint
      dsimp only
      rw [updateLast_getLast? _ c.stints stn0 hlast]
    · rw [Option.map_some']
      dsimp only
      rw [updateLast_dropLast]
  · intro st c e hcur he hnil
    unfold parseStep
    have hcur2 : (tsUpdate st e).current = some c := by
      rw [tsUpdate_current, hcur]
    rw [dispatchEvent_eq_stintEnd hcur2 he]
    unfold stepStintEnd
    rw [hnil]
    dsimp only [updateLast]
    rw [← hnil]
  · intro st e hcur he
    unfold parseStep
    have hcur2 : (tsUpdate st e).current = none := by
      rw [tsUpdate_current, hcur]
    rw [dispatchEvent_eq_of_none hcur2 (by rw [he]; decide)]
    exact ⟨tsUpdate_sessions st e, hcur2⟩

theorem C9_stint_end_overwrites_witness :
    ((parseStep stOpenStint c9WitnessEvent).current.bind
        SessionData.active_stint) =
      some { stint30 with
             end_ := c9WitnessEvent.ts
             fuel_end := r1 c9WitnessEvent.fuel_end } ∧
      (parseStep stOpenStint c9WitnessEvent).current.map
        (fun c2 => c2.stints.dropLast) = some monzaWithStint.stints.dropLast :=
  C9_stint_end_overwrites.1 stOpenStint monzaWithStint c9WitnessEvent stint30
    (by decide) rfl (by decide)

/-- C10: a stint synthesised for a lap_complete arriving when the open
session has no stint keeps the default classification unknown, and the
per-classification session bests are computed only over stints classified
race or qualy (filtering out all other stints changes nothing), so the laps
of a synthetic stint never contribute to them; in the concrete c10Stints the
globally fastest valid lap, 80000 ms in the unknown stint, appears in
neither best. -/
theorem C10_synthetic_unknown :
    (∀ (st : ParseState) (c : SessionData) (e : Event),
      st.current = some c → c.stints = [] → e.event = some "lap_complete" →
      ((parseStep st e).current.bind SessionData.active_stint).map
        StintData.classification = some "unknown") ∧
    (∀ stints : List StintData,
      bestsOf stints = bestsOf (stints.filter (fun s =>
        s.classification == "race" || s.classification == "qualy"))) ∧
    bestsOf c10Stints = (some ⟨95000, some 30⟩, some ⟨93000, some 10⟩) := by
  refine ⟨?_, ?_, by decide⟩
  · intro st c e hcur hnil he
    unfold parseStep
    have hcur2 : (tsUpdate st e).current = some c := by
      rw [tsUpdate_current, hcur]
    rw [dispatchEvent_eq_lapComplete hcur2 he]
    unfold stepLapComplete
    rw [hnil]
    rfl
  · intro stints
    unfold bestsOf
    exact bestsFold_filter (none, none) stints

theorem C10_synthetic_unknown_witness :
    ((parseStep stOpenSession c7LoneLap).current.bind
        SessionData.active_stint).map StintData.classification =
      some "unknown" ∧
      bestsOf c10Stints = bestsOf (c10Stints.filter (fun s =>
        s.classification == "race" || s.classification == "qualy")) :=
  ⟨C10_synthetic_unknown.1 stOpenSession openMonza c7LoneLap (by decide)
    rfl rfl, C10_synthetic_unknown.2.1 c10Stints⟩

end AccSuite
